import Mathlib

/-!
Verification of the multi-provider chat gateway.

Shallow embedding of the backend services of the repository:
the normalized stream model (`StreamChunk`), the four provider adapters
(`src/backend/services/providers/*.py`), the cost tracker
(`src/backend/services/cost_tracker.py`), the conversation service
(`src/backend/services/conversation_service.py`), the chat SSE event
generator's budget gate (`src/backend/routers/chat.py`) and the
request-validation constraints (`src/backend/models/schemas.py`).

Python numbers are modelled by `Nat` (token counts) and `ℚ` (USD amounts,
temperatures); Python `round(x, n)` is modelled as decimal round-half-even;
optional/absent attributes are modelled by `Option`; a function that may
raise reports the exception in an `Option String` component rather than
by a Lean exception. Timestamps on rows are modelled as a `day : Nat`
(date part only) where a claim depends on them and omitted otherwise.
-/

/-- A web citation dict as built by the adapters:
`{"url": ..., "title": ..., "source": ...}`. -/
structure Citation where
  url : String
  title : String
  source : String
deriving DecidableEq, Repr

/-- `StreamChunk` from `src/backend/services/providers/base.py`:
the normalized token chunk every adapter yields. Field defaults follow
the dataclass defaults (`citations` gets a fresh empty list per instance). -/
structure StreamChunk where
  text : String := ""
  is_final : Bool := false
  input_tokens : Nat := 0
  output_tokens : Nat := 0
  finish_reason : Option String := none
  citations : List Citation := []
deriving DecidableEq, Repr

/-- Number of final chunks (`is_final = true`) in an adapter's output. -/
def countFinals (events : List StreamChunk) : Nat :=
  (events.filter (fun c => c.is_final)).length

/-- The citation lists carried by the final chunks of a stream. -/
def finalCitationLists (events : List StreamChunk) : List (List Citation) :=
  (events.filter (fun c => c.is_final)).map (fun c => c.citations)

/-- An adapter invocation's observable outcome: the chunks it yielded, and
`some e` when it let an exception `e` escape to the caller. -/
abbrev AdapterResult := List StreamChunk × Option String

/-! ## Perplexity adapter (`perplexity_provider.py`) -/

/-- One element of the response's top-level `citations` list: either a raw
URL string or a `{url, title}` object (either key possibly missing). -/
inductive RawCitation where
  | str (url : String)
  | obj (url : Option String) (title : Option String)
deriving DecidableEq, Repr

/-- `response.usage` with `prompt_tokens` / `completion_tokens`
(each possibly `None`). -/
structure PUsage where
  prompt_tokens : Option Nat
  completion_tokens : Option Nat
deriving DecidableEq, Repr

/-- The non-streaming Perplexity response as the adapter reads it.
`content = none` covers an empty `choices` list, a missing message and a
`None` content alike: all leave the adapter's `text` variable at `""`. -/
structure PResponse where
  content : Option String
  citations : Option (List RawCitation)
  usage : Option PUsage
deriving DecidableEq, Repr

/-- Behaviour of the backend call `self._client.chat.completions.create`
under `asyncio.wait_for`: a response, a timeout, or any other exception. -/
inductive PBackend where
  | ok (r : PResponse)
  | timeout
  | raise (e : String)
deriving DecidableEq, Repr

/-- One iteration of the `for i, item in enumerate(raw_citations)` loop:
append a `{url, title, source:"perplexity"}` dict when the url is non-empty
and not already present among the accumulated urls. A string item gets the
synthetic title `"Source N"` with `N = i + 1`; an object item falls back to
the same synthetic title when it has no `title` key. -/
def perplexityCitationStep (acc : List Citation) (i : Nat) (item : RawCitation) :
    List Citation :=
  match item with
  | RawCitation.str url =>
      if url ≠ "" ∧ url ∉ acc.map Citation.url then
        acc ++ [⟨url, "Source " ++ toString (i + 1), "perplexity"⟩]
      else acc
  | RawCitation.obj url title =>
      let u := url.getD ""
      let t := title.getD ("Source " ++ toString (i + 1))
      if u ≠ "" ∧ u ∉ acc.map Citation.url then
        acc ++ [⟨u, t, "perplexity"⟩]
      else acc

/-- The citation-extraction loop over the enumerated raw list. -/
def perplexityExtractCitations (raw : List RawCitation) : List Citation :=
  raw.enum.foldl (fun acc p => perplexityCitationStep acc p.1 p.2) []

/-- `if raw_citations and isinstance(raw_citations, list)`: a missing or
empty citations field contributes nothing. -/
def perplexityCitationsOf (r : PResponse) : List Citation :=
  match r.citations with
  | none => []
  | some raw => if raw.isEmpty then [] else perplexityExtractCitations raw

/-- `input_tokens = response.usage.prompt_tokens or 0` (0 when `usage` is
absent). -/
def perplexityInputTokens (r : PResponse) : Nat :=
  match r.usage with
  | none => 0
  | some u => u.prompt_tokens.getD 0

/-- `output_tokens = response.usage.completion_tokens or 0`. -/
def perplexityOutputTokens (r : PResponse) : Nat :=
  match r.usage with
  | none => 0
  | some u => u.completion_tokens.getD 0

/-- `PerplexityProvider.stream_chat`: the whole backend call runs inside
`try/except`; on success the full text (or a fallback string when the text
is empty) is yielded as one chunk followed by one final chunk with usage
and citations; on `asyncio.TimeoutError` or any other exception an
explanatory chunk and a zero-usage final chunk are yielded. No branch lets
an exception escape, so the result's exception component is always `none`. -/
def perplexityStreamChat (b : PBackend) : AdapterResult :=
  match b with
  | PBackend.ok r =>
      let text := r.content.getD ""
      let cits := perplexityCitationsOf r
      let headChunk : StreamChunk :=
        if text ≠ "" then { text := text }
        else { text := "*No response received from Perplexity. Please try again.*" }
      ([headChunk,
        { is_final := true
          input_tokens := perplexityInputTokens r
          output_tokens := perplexityOutputTokens r
          citations := cits }], none)
  | PBackend.timeout =>
      ([{ text := "*Request to Perplexity timed out. Please try again.*" },
        { is_final := true, input_tokens := 0, output_tokens := 0, citations := [] }],
       none)
  | PBackend.raise e =>
      ([{ text := "*Error from Perplexity: " ++ e ++ "*" },
        { is_final := true, input_tokens := 0, output_tokens := 0, citations := [] }],
       none)

/-! ## Gemini adapter (`gemini_provider.py`) -/

/-- A grounding chunk's `web` attribute: `uri` and `title`, each possibly
`None` (the code applies `or ""` to both). -/
structure GWeb where
  uri : Option String
  title : Option String
deriving DecidableEq, Repr

/-- One candidate as the citation loop reads it: `grounding_chunks = none`
covers an absent `grounding_metadata` and an absent or empty
`grounding_chunks` attribute alike (all contribute no citation); each
grounding chunk's `web` attribute may be `None`. -/
structure GCandidate where
  grounding_chunks : Option (List (Option GWeb))
deriving DecidableEq, Repr

/-- One chunk collected from `generate_content_stream`: `text` (`""` for a
falsy `chunk.text`), `usage` when `usage_metadata` is present (with
`prompt_token_count or 0` and `candidates_token_count or 0` applied), and
the candidates list (empty when `chunk.candidates` is falsy). -/
structure GChunk where
  text : String
  usage : Option (Nat × Nat)
  candidates : List GCandidate
deriving DecidableEq, Repr

/-- Body of the candidate loop: build the citation dict from a web
attribute and append it when its url is non-empty and the identical dict
is not already present. The membership test compares the WHOLE dict
(url, title, source), not the url alone. -/
def geminiAddWeb (acc : List Citation) (w : Option GWeb) : List Citation :=
  match w with
  | none => acc
  | some web =>
      let c : Citation := ⟨web.uri.getD "", web.title.getD "", "google_search"⟩
      if c.url ≠ "" ∧ c ∉ acc then acc ++ [c] else acc

/-- Citations contributed by one chunk's candidates. -/
def geminiChunkCitations (acc : List Citation) (ch : GChunk) : List Citation :=
  ch.candidates.foldl
    (fun a cand =>
      match cand.grounding_chunks with
      | none => a
      | some webs => webs.foldl geminiAddWeb a)
    acc

/-- `grounding_citations` accumulated across the whole chunk list. -/
def geminiCitations (chunks : List GChunk) : List Citation :=
  chunks.foldl geminiChunkCitations []

/-- `total_input` / `total_output`: overwritten by every chunk whose
`usage_metadata` is present, so the last such chunk wins. -/
def geminiUsage (chunks : List GChunk) : Nat × Nat :=
  chunks.foldl (fun p ch => match ch.usage with | some u => u | none => p) (0, 0)

/-- The `yield StreamChunk(text=chunk.text)` events: one per chunk with
non-empty text, in order. -/
def geminiTextEvents (chunks : List GChunk) : List StreamChunk :=
  chunks.filterMap (fun ch => if ch.text ≠ "" then some { text := ch.text } else none)

/-- `GeminiProvider.stream_chat` on a collected chunk list: text events in
chunk order, then exactly one final chunk with the accumulated usage and
citations. -/
def geminiEvents (chunks : List GChunk) : List StreamChunk :=
  geminiTextEvents chunks ++
    [{ is_final := true
       input_tokens := (geminiUsage chunks).1
       output_tokens := (geminiUsage chunks).2
       citations := geminiCitations chunks }]

/-- `GeminiProvider.stream_chat` as a whole: `_sync_stream` collects all
backend chunks inside `try/except` and RE-RAISES any exception; the
re-raised exception propagates out of `stream_chat` (there is no handler
around the `await`), so on a backend error no chunk is yielded and the
exception escapes. -/
def geminiStreamChat (backend : Except String (List GChunk)) : AdapterResult :=
  match backend with
  | Except.error e => ([], some e)
  | Except.ok chunks => (geminiEvents chunks, none)

/-! ## OpenAI adapter (`openai_provider.py`) -/

/-- `chunk.choices[0]`: the delta's `content` (possibly `None`) and the
`finish_reason` string (possibly `None`; the code tests its truthiness, so
`""` behaves like `None`). -/
structure OChoice where
  delta_content : Option String
  finish_reason : Option String
deriving DecidableEq, Repr

/-- One chunk of the OpenAI stream: a truthy `usage` block or a choices
list. -/
structure OChunk where
  usage : Option (Nat × Nat)
  choices : List OChoice
deriving DecidableEq, Repr

/-- Behaviour of the backend stream: the chunks it yields before either
finishing cleanly (`err = none`) or raising (`err = some e`; an exception
when opening the stream is the case `chunks = []`). -/
structure OBackend where
  chunks : List OChunk
  err : Option String
deriving DecidableEq, Repr

/-- Body of the `async for chunk in stream` loop: a usage chunk becomes the
final event; otherwise a present delta content becomes a text event;
otherwise a truthy finish reason becomes a finish event; otherwise
nothing. -/
def openaiChunkEvent (ch : OChunk) : Option StreamChunk :=
  match ch.usage with
  | some u => some { is_final := true, input_tokens := u.1, output_tokens := u.2 }
  | none =>
      match ch.choices.head? with
      | none => none
      | some c =>
          match c.delta_content with
          | some t => some { text := t }
          | none =>
              match c.finish_reason with
              | some fr => if fr ≠ "" then some { finish_reason := some fr } else none
              | none => none

/-- `OpenAIProvider.stream_chat`: no `try/except` anywhere, so a backend
exception propagates after the events of the already-yielded chunks; a
final event is produced exactly by the chunks that carry usage. -/
def openaiStreamChat (b : OBackend) : AdapterResult :=
  (b.chunks.filterMap openaiChunkEvent, b.err)

/-! ## Anthropic adapter (`anthropic_provider.py`) -/

/-- Behaviour of `self._client.messages.stream(...)`: raising when the
stream is opened, raising after yielding some text fragments (covering
errors in `text_stream` iteration and in `get_final_message`), or
completing with the final message's usage. -/
inductive ABackend where
  | raiseOnOpen (e : String)
  | midStream (texts : List String) (e : String)
  | ok (texts : List String) (input_tokens output_tokens : Nat)
deriving DecidableEq, Repr

/-- `AnthropicProvider.stream_chat`: one text event per fragment, then one
final event with the aggregator's usage; no `try/except`, so backend
exceptions propagate (after whatever fragments were already yielded). -/
def anthropicStreamChat (b : ABackend) : AdapterResult :=
  match b with
  | ABackend.raiseOnOpen e => ([], some e)
  | ABackend.midStream texts e => (texts.map (fun t => { text := t }), some e)
  | ABackend.ok texts i o =>
      (texts.map (fun t => { text := t }) ++
        [{ is_final := true, input_tokens := i, output_tokens := o }], none)

/-! ## Cost tracker (`cost_tracker.py`) -/

/-- A Python dict modelled as an association list; lookup takes the first
matching key (keys are unique in a real dict). -/
def dictGet {α : Type} (d : List (String × α)) (k : String) : Option α :=
  (d.find? (fun p => p.1 == k)).map (fun p => p.2)

/-- One model's rate set, e.g. `{"input": 2.50, "output": 10.00}`. -/
abbrev PricingDict := List (String × ℚ)

/-- `settings.pricing_config`: provider name → (model id → rate set). -/
abbrev PricingConfig := List (String × List (String × PricingDict))

/-- `CostTracker._get_model_pricing`: scan the providers in order and
return the first rate set registered under `model_id`; `{}` when no
provider knows the model. -/
def getModelPricing (pricing : PricingConfig) (model_id : String) : PricingDict :=
  match pricing with
  | [] => []
  | (_, models) :: rest =>
      match dictGet models model_id with
      | some d => d
      | none => getModelPricing rest model_id

/-- Round a rational to the nearest integer, ties to even — the behaviour
of Python's `round`. -/
def roundHalfEven (q : ℚ) : ℤ :=
  let f : ℤ := ⌊q⌋
  let frac : ℚ := q - f
  if frac < 1 / 2 then f
  else if 1 / 2 < frac then f + 1
  else if f % 2 = 0 then f else f + 1

/-- Python's `round(x, 8)`: round to 8 decimal places. -/
def pyRound8 (q : ℚ) : ℚ :=
  (roundHalfEven (q * 100000000) : ℚ) / 100000000

/-- `CostTracker.calculate_chat_cost`: zero for a model with empty (or no)
pricing, otherwise the per-million-token formula rounded to 8 decimal
places; the per-direction rates default to 0 when the key is missing. -/
def calculate_chat_cost (pricing : PricingConfig) (model_id : String)
    (input_tokens output_tokens : Nat) : ℚ :=
  let p := getModelPricing pricing model_id
  if p.isEmpty then 0
  else
    let input_cost_per_m := (dictGet p "input").getD 0
    let output_cost_per_m := (dictGet p "output").getD 0
    pyRound8 ((input_tokens : ℚ) / 1000000 * input_cost_per_m
      + (output_tokens : ℚ) / 1000000 * output_cost_per_m)

/-! ## Request validation (`schemas.py`) -/

/-- The `ChatRequest` field constraints: `message` has
`min_length=1, max_length=50000` and `temperature` has `ge=0.0, le=2.0`
(`conversation_id`, `model_id` and `use_rag` carry no constraint). A
request with a well-typed body is accepted exactly when this returns
`true`. -/
def chatRequestValid (message : String) (temperature : ℚ) : Bool :=
  decide (1 ≤ message.length) && decide (message.length ≤ 50000)
    && decide (0 ≤ temperature) && decide (temperature ≤ 2)

/-! ## Conversation store state (`database.py`, `conversation_service.py`) -/

/-- A `conversations` row. Timestamps are not modelled (no claim depends
on them); the token/cost totals default to 0 in the schema. -/
structure ConvRow where
  id : String
  title : String
  model_id : String
  system_prompt : String
  total_input_tokens : Nat
  total_output_tokens : Nat
  total_cost_usd : ℚ
deriving DecidableEq, Repr

/-- A `messages` row (timestamp omitted). -/
structure MsgRow where
  id : String
  conversation_id : String
  role : String
  content : String
  model_id : Option String
  input_tokens : Nat
  output_tokens : Nat
  cost_usd : ℚ
  used_docs : Bool
deriving DecidableEq, Repr

/-- A `cost_log` row; `day` is the date part of `created_at` as a day
number, which is all the budget gate's date comparison observes. -/
structure CostEntry where
  conversation_id : Option String
  message_id : Option String
  model_id : String
  operation : String
  input_tokens : Nat
  output_tokens : Nat
  cost_usd : ℚ
  day : Nat
deriving DecidableEq, Repr

/-- The relational store restricted to the tables the claims touch. -/
structure DBState where
  conversations : List ConvRow
  messages : List MsgRow
  cost_log : List CostEntry
deriving DecidableEq, Repr

/-- `ConversationService.create_conversation`: insert a row with the
schema's zero totals. The generated UUID is passed in as `conv_id`. -/
def create_conversation (st : DBState) (conv_id model_id title system_prompt : String) :
    DBState × ConvRow :=
  let row : ConvRow := ⟨conv_id, title, model_id, system_prompt, 0, 0, 0⟩
  ({ st with conversations := st.conversations ++ [row] }, row)

/-- The `UPDATE conversations SET total_* = total_* + ?` rollup applied to
one row. -/
def bumpTotals (c : ConvRow) (input_tokens output_tokens : Nat) (cost_usd : ℚ) : ConvRow :=
  { c with
    total_input_tokens := c.total_input_tokens + input_tokens
    total_output_tokens := c.total_output_tokens + output_tokens
    total_cost_usd := c.total_cost_usd + cost_usd }

/-- `ConversationService.add_message`: insert the message row and apply
the conversation rollup update; both statements precede the single
`db.commit()`, so the model performs them as one atomic state transition.
The generated UUID is passed in as `msg_id` and returned. -/
def add_message (st : DBState) (msg_id conversation_id role content : String)
    (model_id : Option String) (input_tokens output_tokens : Nat) (cost_usd : ℚ)
    (used_docs : Bool) : DBState × String :=
  let row : MsgRow :=
    ⟨msg_id, conversation_id, role, content, model_id,
      input_tokens, output_tokens, cost_usd, used_docs⟩
  ({ st with
      messages := st.messages ++ [row]
      conversations := st.conversations.map (fun c =>
        if c.id = conversation_id then bumpTotals c input_tokens output_tokens cost_usd
        else c) },
   msg_id)

/-- `ConversationService.delete_conversation`: delete the conversation's
messages, its cost-log rows and the conversation row itself; all three
statements share the one commit. -/
def delete_conversation (st : DBState) (conversation_id : String) : DBState :=
  { conversations := st.conversations.filter (fun c => c.id ≠ conversation_id)
    messages := st.messages.filter (fun m => m.conversation_id ≠ conversation_id)
    cost_log := st.cost_log.filter (fun e => e.conversation_id ≠ some conversation_id) }

/-- The `DELETE /conversations/{id}` route handler: call the service and
return `{"status": "deleted"}` unconditionally. -/
def deleteConversationRoute (st : DBState) (conversation_id : String) : DBState × String :=
  (delete_conversation st conversation_id, "deleted")

/-! ## Chat SSE budget gate (`routers/chat.py`) -/

/-- The SSE event vocabulary of `/chat/completions`. -/
inductive SSEEvent where
  | conversation (conversation_id : String)
  | sources (data : String)
  | token (text : String)
  | web_sources (citations : List Citation)
  | usage (input_tokens output_tokens : Nat) (cost_usd : ℚ) (model_id conversation_id : String)
  | done
  | error (msg : String)
deriving DecidableEq, Repr

/-- Python's `f"{x:.2f}"` formatting of a USD amount. -/
def fmt2 (q : ℚ) : String :=
  let cents : ℤ := roundHalfEven (q * 100)
  let sign := if cents < 0 then "-" else ""
  let a := cents.natAbs
  let r := a % 100
  sign ++ toString (a / 100) ++ "." ++ (if r < 10 then "0" else "") ++ toString r

/-- The budget-rejection message: it interpolates (and hence names) the
configured cap and the amount already spent today. -/
def budgetErrorMsg (cap today_spend : ℚ) : String :=
  "Daily budget of $" ++ fmt2 cap ++ " reached ($" ++ fmt2 today_spend
    ++ " spent today). Try again tomorrow."

/-- The gate's query `SELECT COALESCE(SUM(cost_usd), 0) FROM cost_log
WHERE created_at >= date('now')`: the string comparison of a timestamp
against today's date keeps exactly the rows whose date part is ≥ today. -/
def todaySpendQuery (log : List CostEntry) (today : Nat) : ℚ :=
  ((log.filter (fun e => today ≤ e.day)).map (fun e => e.cost_usd)).sum

/-- The spend the claim speaks about: entries whose creation date IS the
current date. -/
def todaySpendClaim (log : List CostEntry) (today : Nat) : ℚ :=
  ((log.filter (fun e => e.day == today)).map (fun e => e.cost_usd)).sum

/-- The budget-gate prefix of `chat_completions.event_generator`: when the
configured cap is positive and today's logged spend has reached it, yield
the single `error` event and return (the only database access so far is
the read-only SUM query, so the state is returned unchanged); otherwise
the generator continues with the rest of the turn, abstracted here as
`rest`. -/
def chatEventGenerator (max_daily_spend_usd : ℚ) (today : Nat) (st : DBState)
    (rest : DBState → List SSEEvent × DBState) : List SSEEvent × DBState :=
  if 0 < max_daily_spend_usd then
    let today_spend := todaySpendQuery st.cost_log today
    if max_daily_spend_usd ≤ today_spend then
      ([SSEEvent.error (budgetErrorMsg max_daily_spend_usd today_spend)], st)
    else rest st
  else rest st

/-! ## Helper lemmas -/

/-- A string of `n` copies of `a`, for the length-boundary checks. -/
def longA (n : Nat) : String := String.mk (List.replicate n 'a')

theorem longA_length (n : Nat) : (longA n).length = n := by
  simp [longA, String.length]

/-- The pricing configuration of the spec's cost-math scenario:
gpt-4o at 2.50 / 10.00 USD per million tokens. -/
def gpt4oPricing : PricingConfig :=
  [("openai", [("gpt-4o", [("input", 5 / 2), ("output", 10)])])]

theorem getModelPricing_eq_nil (pricing : PricingConfig) (model_id : String)
    (h : ∀ pm ∈ pricing, dictGet pm.2 model_id = none) :
    getModelPricing pricing model_id = [] := by
  induction pricing with
  | nil => rfl
  | cons hd tl ih =>
      obtain ⟨p, models⟩ := hd
      have h0 : dictGet models model_id = none := h (p, models) (List.mem_cons_self _ _)
      have htl : getModelPricing tl model_id = [] :=
        ih (fun pm hm => h pm (List.mem_cons_of_mem _ hm))
      simp [getModelPricing, h0, htl]

/-! ## C3: chat cost formula -/

/-- C3: for every model id with configured input/output rates and all
token counts, `calculate_chat_cost` equals
`(input_tokens / 1_000_000) * input_rate + (output_tokens / 1_000_000) * output_rate`
rounded to 8 decimal places; in particular, with rates 2.50 and 10.00 per
million tokens, `calculate_chat_cost "gpt-4o" 1000 500 = 0.00750000`
(`3 / 400` as a rational). -/
theorem chat_cost_formula_and_gpt4o_example :
    (∀ (pricing : PricingConfig) (model_id : String) (ri ro : ℚ) (i o : Nat),
        getModelPricing pricing model_id ≠ [] →
        dictGet (getModelPricing pricing model_id) "input" = some ri →
        dictGet (getModelPricing pricing model_id) "output" = some ro →
        calculate_chat_cost pricing model_id i o
          = pyRound8 ((i : ℚ) / 1000000 * ri + (o : ℚ) / 1000000 * ro))
    ∧ calculate_chat_cost gpt4oPricing "gpt-4o" 1000 500 = 3 / 400 := by
  have hgen : ∀ (pricing : PricingConfig) (model_id : String) (ri ro : ℚ) (i o : Nat),
      getModelPricing pricing model_id ≠ [] →
      dictGet (getModelPricing pricing model_id) "input" = some ri →
      dictGet (getModelPricing pricing model_id) "output" = some ro →
      calculate_chat_cost pricing model_id i o
        = pyRound8 ((i : ℚ) / 1000000 * ri + (o : ℚ) / 1000000 * ro) := by
    intro pricing model_id ri ro i o hne hri hro
    unfold calculate_chat_cost
    simp only [hri, hro, Option.getD_some]
    rw [if_neg (by simpa [List.isEmpty_iff] using hne)]
  refine ⟨hgen, ?_⟩
  have hp : getModelPricing gpt4oPricing "gpt-4o"
      = [("input", (5 : ℚ) / 2), ("output", 10)] := by
    simp [gpt4oPricing, getModelPricing, dictGet, List.find?]
  rw [hgen gpt4oPricing "gpt-4o" (5 / 2) 10 1000 500
    (by rw [hp]; simp)
    (by rw [hp]; simp [dictGet, List.find?])
    (by rw [hp]; simp [dictGet, List.find?])]
  have hin : ((1000 : ℕ) : ℚ) / 1000000 * (5 / 2) + ((500 : ℕ) : ℚ) / 1000000 * 10
      = 3 / 400 := by
    norm_num
  rw [hin]
  have h : (3 : ℚ) / 400 * 100000000 = ((750000 : ℤ) : ℚ) := by norm_num
  rw [pyRound8, roundHalfEven, h]
  norm_num [Int.fract_intCast]

/-- Closed witness for C3's general part: the formula instantiated at the
gpt-4o configuration with 1000 input / 500 output tokens. -/
theorem chat_cost_formula_witness :
    calculate_chat_cost gpt4oPricing "gpt-4o" 1000 500
      = pyRound8 ((1000 : ℚ) / 1000000 * (5 / 2) + (500 : ℚ) / 1000000 * 10) := by
  have hp : getModelPricing gpt4oPricing "gpt-4o"
      = [("input", (5 : ℚ) / 2), ("output", 10)] := by
    simp [gpt4oPricing, getModelPricing, dictGet, List.find?]
  exact chat_cost_formula_and_gpt4o_example.1 gpt4oPricing "gpt-4o" (5 / 2) 10 1000 500
    (by rw [hp]; simp)
    (by rw [hp]; simp [dictGet, List.find?])
    (by rw [hp]; simp [dictGet, List.find?])

/-! ## C8: unknown model id -/

/-- C8: a model id not present under any provider of the pricing
configuration yields cost 0.0 (and the Lean embedding is a total
function: no code path of `calculate_chat_cost` raises). -/
theorem unknown_model_zero_cost (pricing : PricingConfig) (model_id : String)
    (i o : Nat) (h : ∀ pm ∈ pricing, dictGet pm.2 model_id = none) :
    calculate_chat_cost pricing model_id i o = 0 := by
  unfold calculate_chat_cost
  simp [getModelPricing_eq_nil pricing model_id h]

/-- Closed witness for C8: a model id unknown to the configuration. -/
theorem unknown_model_zero_cost_witness :
    calculate_chat_cost gpt4oPricing "claude-sonnet-4" 7 9 = 0 :=
  unknown_model_zero_cost gpt4oPricing "claude-sonnet-4" 7 9 (by
    intro pm hm
    simp [gpt4oPricing] at hm
    subst hm
    simp [dictGet, List.find?])

/-! ## C9: request validation boundaries -/

/-- C9: a well-typed chat request is accepted exactly when the message
length is in [1, 50000] and the temperature is in [0.0, 2.0]; the
boundary lengths 1 and 50000 and temperatures 0.0 and 2.0 are accepted,
while length 0 or 50001 and temperatures −0.01 and 2.01 are rejected. -/
theorem chat_request_validation_boundaries :
    (∀ (m : String) (t : ℚ), chatRequestValid m t = true
        ↔ (1 ≤ m.length ∧ m.length ≤ 50000 ∧ 0 ≤ t ∧ t ≤ 2))
    ∧ chatRequestValid (longA 1) 0 = true
    ∧ chatRequestValid (longA 50000) 2 = true
    ∧ chatRequestValid (longA 0) 1 = false
    ∧ chatRequestValid (longA 50001) 1 = false
    ∧ chatRequestValid (longA 1) (-(1 : ℚ) / 100) = false
    ∧ chatRequestValid (longA 1) (201 / 100) = false := by
  refine ⟨?_, ?_, ?_, ?_, ?_, ?_, ?_⟩
  · intro m t
    simp [chatRequestValid, and_assoc]
  all_goals norm_num [chatRequestValid, longA_length]

/-! ## C10: delete is idempotent and never NotFound -/

/-- C10: for every store state and every conversation id (including ids
matching no stored conversation) the delete route returns
`{"status": "deleted"}`, and a second delete of the same id returns the
identical response and leaves the store unchanged. -/
theorem delete_conversation_idempotent :
    ∀ (st : DBState) (cid : String),
      (deleteConversationRoute st cid).2 = "deleted"
      ∧ deleteConversationRoute (deleteConversationRoute st cid).1 cid
          = ((deleteConversationRoute st cid).1, "deleted") := by
  intro st cid
  refine ⟨rfl, ?_⟩
  simp [deleteConversationRoute, delete_conversation, List.filter_filter]

/-! ## Adapter stream-shape lemmas -/

theorem countFinals_geminiTextEvents (chunks : List GChunk) :
    countFinals (geminiTextEvents chunks) = 0 := by
  rw [countFinals, List.length_eq_zero, List.filter_eq_nil_iff]
  intro c hc
  rw [geminiTextEvents, List.mem_filterMap] at hc
  obtain ⟨a, _, hfa⟩ := hc
  by_cases h : a.text = ""
  · simp [h] at hfa
  · simp [h] at hfa
    subst hfa
    simp

theorem countFinals_textMap (texts : List String) :
    countFinals (texts.map (fun t => ({ text := t } : StreamChunk))) = 0 := by
  rw [countFinals, List.length_eq_zero, List.filter_eq_nil_iff]
  intro c hc
  rw [List.mem_map] at hc
  obtain ⟨t, _, ht⟩ := hc
  subst ht
  simp

theorem openai_countFinals (chunks : List OChunk) :
    countFinals (chunks.filterMap openaiChunkEvent)
      = chunks.countP (fun ch => ch.usage.isSome) := by
  induction chunks with
  | nil => rfl
  | cons hd tl ih =>
      simp only [countFinals] at ih
      rw [List.filterMap_cons, List.countP_cons]
      rcases hu : hd.usage with _ | u
      · rcases hc : hd.choices.head? with _ | c
        · simp [openaiChunkEvent, hu, hc, countFinals, ih]
        · rcases hd1 : c.delta_content with _ | t
          · rcases hf : c.finish_reason with _ | fr
            · simp [openaiChunkEvent, hu, hc, hd1, hf, countFinals, ih]
            · by_cases hfr : fr = ""
              · simp [openaiChunkEvent, hu, hc, hd1, hf, hfr, countFinals, ih]
              · simp [openaiChunkEvent, hu, hc, hd1, hf, hfr, countFinals, List.filter, ih]
          · simp [openaiChunkEvent, hu, hc, hd1, countFinals, List.filter, ih]
      · simp [openaiChunkEvent, hu, countFinals, List.filter, ih]

theorem perplexity_one_final (b : PBackend) :
    countFinals (perplexityStreamChat b).1 = 1 ∧ (perplexityStreamChat b).2 = none := by
  cases b with
  | ok r =>
      constructor
      · simp only [perplexityStreamChat, countFinals]
        split <;> simp [List.filter]
      · simp [perplexityStreamChat]
  | timeout => constructor <;> simp [perplexityStreamChat, countFinals, List.filter]
  | raise e => constructor <;> simp [perplexityStreamChat, countFinals, List.filter]

/-! ## C1: one final event per invocation / no exception escapes -/

/-- Counterexample for C1: the Gemini adapter on a backend that raises
(`_sync_stream` re-raises, and `stream_chat` has no handler) yields no
chunk at all — in particular no final chunk — and lets the exception
reach its caller. -/
theorem gemini_error_propagates_counterexample :
    geminiStreamChat (Except.error "boom") = ([], some "boom")
    ∧ ¬ (countFinals (geminiStreamChat (Except.error "boom")).1 = 1
         ∧ (geminiStreamChat (Except.error "boom")).2 = none) := by
  constructor
  · rfl
  · decide

/-- C1 as amended: the Perplexity adapter yields exactly one final chunk
and never propagates an exception, on every path (success, empty
response, timeout, exception). The Gemini adapter (on a backend stream
that succeeds) and the Anthropic adapter (when the stream completes)
yield exactly one final chunk; the OpenAI adapter yields one final chunk
per backend chunk carrying a usage block — exactly one when the backend
honours the requested `include_usage` with a single usage chunk. When the
backend raises, the Gemini, Anthropic and OpenAI adapters propagate the
exception to their caller. -/
theorem one_final_per_invocation_amended :
    (∀ b : PBackend,
        countFinals (perplexityStreamChat b).1 = 1 ∧ (perplexityStreamChat b).2 = none)
    ∧ (∀ chunks : List GChunk,
        countFinals (geminiStreamChat (Except.ok chunks)).1 = 1
        ∧ (geminiStreamChat (Except.ok chunks)).2 = none)
    ∧ (∀ (texts : List String) (i o : Nat),
        countFinals (anthropicStreamChat (ABackend.ok texts i o)).1 = 1
        ∧ (anthropicStreamChat (ABackend.ok texts i o)).2 = none)
    ∧ (∀ b : OBackend,
        countFinals (openaiStreamChat b).1 = b.chunks.countP (fun ch => ch.usage.isSome))
    ∧ (∀ e : String,
        (geminiStreamChat (Except.error e)).2 = some e
        ∧ (anthropicStreamChat (ABackend.raiseOnOpen e)).2 = some e
        ∧ (∀ texts, (anthropicStreamChat (ABackend.midStream texts e)).2 = some e)
        ∧ (∀ chunks, (openaiStreamChat ⟨chunks, some e⟩).2 = some e)) := by
  refine ⟨perplexity_one_final, ?_, ?_, ?_, ?_⟩
  · intro chunks
    refine ⟨?_, rfl⟩
    have h0 := countFinals_geminiTextEvents chunks
    rw [countFinals, List.length_eq_zero] at h0
    simp [geminiStreamChat, geminiEvents, countFinals, List.filter_append, h0, List.filter]
  · intro texts i o
    refine ⟨?_, rfl⟩
    have h0 := countFinals_textMap texts
    rw [countFinals, List.length_eq_zero] at h0
    simp [anthropicStreamChat, countFinals, List.filter_append, h0, List.filter]
  · intro b
    exact openai_countFinals b.chunks
  · intro e
    exact ⟨rfl, rfl, fun texts => rfl, fun chunks => rfl⟩

/-! ## C4: Perplexity empty-response fallback -/

/-- A concrete response with empty content but non-trivial usage and
citations, on which the claim's predicted output fails. -/
def c4Resp : PResponse :=
  ⟨none, some [RawCitation.obj (some "https://x") (some "T")], some ⟨some 3, some 4⟩⟩

/-- Counterexample for C4: on a response with absent content the fallback
text is wrapped in asterisks (markdown italics), and the final chunk
carries the response's usage and citations rather than zeros and an
empty list. -/
theorem perplexity_fallback_counterexample :
    (perplexityStreamChat (PBackend.ok c4Resp)).1
      = [{ text := "*No response received from Perplexity. Please try again.*" },
         { is_final := true, input_tokens := 3, output_tokens := 4,
           citations := [⟨"https://x", "T", "perplexity"⟩] }]
    ∧ (perplexityStreamChat (PBackend.ok c4Resp)).1
      ≠ [{ text := "No response received from Perplexity. Please try again." },
         { is_final := true, input_tokens := 0, output_tokens := 0, citations := [] }] := by
  constructor <;> decide

/-- C4 as amended: when `choices[0].message.content` is absent or empty,
the adapter yields exactly two chunks — a text chunk whose text is
`"*No response received from Perplexity. Please try again.*"` followed by
one final chunk carrying the response's usage token counts (0 when the
usage block is absent) and the citations extracted from the response's
citations field (empty when absent) — and lets no exception escape. -/
theorem perplexity_empty_fallback (r : PResponse) (h : r.content.getD "" = "") :
    perplexityStreamChat (PBackend.ok r)
      = ([{ text := "*No response received from Perplexity. Please try again.*" },
          { is_final := true, input_tokens := perplexityInputTokens r,
            output_tokens := perplexityOutputTokens r,
            citations := perplexityCitationsOf r }], none) := by
  simp [perplexityStreamChat, h]

/-- Closed witness for C4's amended theorem: the fully-empty response. -/
theorem perplexity_empty_fallback_witness :
    perplexityStreamChat (PBackend.ok ⟨none, none, none⟩)
      = ([{ text := "*No response received from Perplexity. Please try again.*" },
          { is_final := true, input_tokens := 0, output_tokens := 0, citations := [] }],
         none) := by
  have h := perplexity_empty_fallback ⟨none, none, none⟩ (by rfl)
  simpa [perplexityInputTokens, perplexityOutputTokens, perplexityCitationsOf] using h

/-! ## C5: citation URLs unique within an invocation -/

/-- One Gemini chunk whose candidate carries two grounding chunks with the
SAME web uri but different titles. -/
def c5Chunk : GChunk :=
  ⟨"", none, [⟨some [some ⟨some "https://example.com", some "A"⟩,
                     some ⟨some "https://example.com", some "B"⟩]⟩]⟩

/-- C5 evaluated at the failing input: the Gemini adapter's final chunk
carries two citations with the same URL, because the membership test
`citation not in grounding_citations` compares the whole
`{url, title, source}` dict while the code's own comment (and the spec)
say "Deduplicate by URL". -/
theorem gemini_duplicate_url_in_final :
    finalCitationLists (geminiStreamChat (Except.ok [c5Chunk])).1
      = [[⟨"https://example.com", "A", "google_search"⟩,
          ⟨"https://example.com", "B", "google_search"⟩]]
    ∧ ¬ (([⟨"https://example.com", "A", "google_search"⟩,
           ⟨"https://example.com", "B", "google_search"⟩] : List Citation).map
            Citation.url).Nodup := by
  constructor
  · decide
  · decide

/-! ## C6: Perplexity citation dedup on ["A", "A", "B"] -/

/-- C6: with raw citations `["A", "A", "B"]` the single final chunk's
citation list has length 2, keeps first-seen order (`"A"` before `"B"`),
and each entry carries `source = "perplexity"` and a synthetic title of
the form `"Source N"` (`N` being the 1-based index in the raw list, here
"Source 1" and "Source 3"). The result holds whatever the response's
content and usage are. -/
theorem perplexity_citations_AAB :
    ∀ (content : Option String) (usage : Option PUsage),
      finalCitationLists (perplexityStreamChat (PBackend.ok
        ⟨content, some [RawCitation.str "A", RawCitation.str "A", RawCitation.str "B"],
          usage⟩)).1
      = [[⟨"A", "Source 1", "perplexity"⟩, ⟨"B", "Source 3", "perplexity"⟩]] := by
  intro content usage
  have hcits : perplexityExtractCitations
      [RawCitation.str "A", RawCitation.str "A", RawCitation.str "B"]
      = [⟨"A", "Source 1", "perplexity"⟩, ⟨"B", "Source 3", "perplexity"⟩] := by
    decide
  rcases content with _ | s
  · simp [finalCitationLists, perplexityStreamChat, perplexityCitationsOf, List.filter,
      hcits]
  · by_cases hs : s = ""
    · subst hs
      simp [finalCitationLists, perplexityStreamChat, perplexityCitationsOf, List.filter,
        hcits]
    · simp [finalCitationLists, perplexityStreamChat, perplexityCitationsOf, List.filter,
        hcits, hs]

/-! ## C2: the budget gate -/

theorem todaySpend_eq (log : List CostEntry) (today : Nat)
    (h : ∀ e ∈ log, e.day ≤ today) :
    todaySpendQuery log today = todaySpendClaim log today := by
  rw [todaySpendQuery, todaySpendClaim]
  congr 2
  apply List.filter_congr
  intro e he
  have hle := h e he
  have hiff : (today ≤ e.day) ↔ (e.day = today) := by omega
  rw [Bool.eq_iff_iff]
  simp [hiff]

/-- C2: with a positive configured cap, and no cost-log entry dated in
the future (always the case for rows stamped by the database's
`datetime('now')` default, which makes the code's `created_at >=
date('now')` filter coincide with "created today"), the turn is rejected
exactly when today's logged spend has reached the cap: on rejection the
generator emits the single `error` event whose message interpolates the
cap and today's spend (see `budgetErrorMsg`) — so no `token`, `usage` or
`done` event — and returns the store unchanged (its only access was the
read-only SUM query); below the cap the gate is transparent and the turn
proceeds as `rest`. -/
theorem budget_gate_rejects_iff (cap : ℚ) (today : Nat) (st : DBState)
    (rest : DBState → List SSEEvent × DBState)
    (hcap : 0 < cap) (hdates : ∀ e ∈ st.cost_log, e.day ≤ today) :
    (cap ≤ todaySpendClaim st.cost_log today →
        chatEventGenerator cap today st rest
          = ([SSEEvent.error (budgetErrorMsg cap (todaySpendClaim st.cost_log today))], st))
    ∧ (todaySpendClaim st.cost_log today < cap →
        chatEventGenerator cap today st rest = rest st) := by
  have heq := todaySpend_eq st.cost_log today hdates
  constructor
  · intro hge
    rw [chatEventGenerator, if_pos hcap]
    simp only [heq]
    rw [if_pos hge]
  · intro hlt
    rw [chatEventGenerator, if_pos hcap]
    simp only [heq]
    rw [if_neg (not_le.mpr hlt)]

/-- A cost-log entry worth exactly the 1.00 USD cap, dated today. -/
def c2Entry : CostEntry := ⟨none, none, "gpt-4o", "chat", 0, 0, 1, 5⟩

/-- The store of the daily-cap scenario: one entry summing to the cap. -/
def c2State : DBState := ⟨[], [], [c2Entry]⟩

/-- Closed witness for C2: cap 1.00, today's spend already 1.00 — the
turn yields exactly the one budget `error` event, and the store is
unchanged. -/
theorem budget_gate_rejects_iff_witness :
    chatEventGenerator 1 5 c2State (fun s => ([SSEEvent.done], s))
      = ([SSEEvent.error (budgetErrorMsg 1 1)], c2State) := by
  have hsum : todaySpendClaim c2State.cost_log 5 = 1 := by
    norm_num [todaySpendClaim, c2State, c2Entry, List.filter]
  have h := (budget_gate_rejects_iff 1 5 c2State (fun s => ([SSEEvent.done], s))
    (by norm_num)
    (by intro e he; simp [c2State, c2Entry] at he; subst he; simp [c2Entry])).1
    (by rw [hsum])
  rw [hsum] at h
  exact h

/-! ## C7: conversation totals rollup -/

/-- Sum of a billed field over a conversation's messages. -/
def msgFieldSum {M : Type} [AddCommMonoid M] (msgs : List MsgRow) (cid : String)
    (f : MsgRow → M) : M :=
  ((msgs.filter (fun m => m.conversation_id == cid)).map f).sum

/-- The quiescent-point invariant of C7: every conversation row's rolling
totals equal the sums of the corresponding fields over its messages. -/
def convTotalsInvariant (st : DBState) : Prop :=
  ∀ c ∈ st.conversations,
    c.total_input_tokens = msgFieldSum st.messages c.id (fun m => m.input_tokens)
    ∧ c.total_output_tokens = msgFieldSum st.messages c.id (fun m => m.output_tokens)
    ∧ c.total_cost_usd = msgFieldSum st.messages c.id (fun m => m.cost_usd)

/-- The arguments of one completed `add_message` call. -/
structure AddMsgOp where
  msg_id : String
  conversation_id : String
  role : String
  content : String
  model_id : Option String
  input_tokens : Nat
  output_tokens : Nat
  cost_usd : ℚ
  used_docs : Bool

/-- Run one `add_message` call (dropping the returned message id). -/
def applyAddMessage (st : DBState) (op : AddMsgOp) : DBState :=
  (add_message st op.msg_id op.conversation_id op.role op.content op.model_id
    op.input_tokens op.output_tokens op.cost_usd op.used_docs).1

/-- Run a sequence of completed `add_message` calls. -/
def applyAddMessages (st : DBState) (ops : List AddMsgOp) : DBState :=
  ops.foldl applyAddMessage st

theorem msgFieldSum_append {M : Type} [AddCommMonoid M] (msgs : List MsgRow) (row : MsgRow)
    (cid : String) (f : MsgRow → M) :
    msgFieldSum (msgs ++ [row]) cid f
      = msgFieldSum msgs cid f + (if row.conversation_id = cid then f row else 0) := by
  rw [msgFieldSum, msgFieldSum, List.filter_append]
  by_cases h : row.conversation_id = cid
  · have hb : (row.conversation_id == cid) = true := by simp [h]
    simp [List.filter, hb, h]
  · have hb : (row.conversation_id == cid) = false := by simp [h]
    simp [List.filter, hb, h]

theorem add_message_preserves_totals (st : DBState) (op : AddMsgOp)
    (h : convTotalsInvariant st) : convTotalsInvariant (applyAddMessage st op) := by
  intro c' hc'
  simp only [applyAddMessage, add_message] at hc' ⊢
  rw [List.mem_map] at hc'
  obtain ⟨c, hc, hfc⟩ := hc'
  obtain ⟨h1, h2, h3⟩ := h c hc
  by_cases hid : c.id = op.conversation_id
  · rw [if_pos hid] at hfc
    subst hfc
    refine ⟨?_, ?_, ?_⟩ <;>
      simp [bumpTotals, msgFieldSum_append, hid, h1, h2, h3]
  · rw [if_neg hid] at hfc
    subst hfc
    have hne : op.conversation_id ≠ c.id := fun hcc => hid hcc.symm
    refine ⟨?_, ?_, ?_⟩ <;>
      simp [msgFieldSum_append, hne, h1, h2, h3]

/-- C7: the totals invariant holds at every quiescent point. Part 1:
any sequence of completed `add_message` calls preserves it — each call
inserts the message row and applies the matching rollup update as the one
atomic transition `add_message`, mirroring the source where both
statements precede the single `db.commit()` of one transaction. Part 2:
`create_conversation` establishes the invariant for the new conversation
(its fresh UUID matches no existing message). -/
theorem conversation_totals_rollup :
    (∀ (st : DBState) (ops : List AddMsgOp),
        convTotalsInvariant st → convTotalsInvariant (applyAddMessages st ops))
    ∧ (∀ (st : DBState) (conv_id model_id title sys : String),
        convTotalsInvariant st →
        (∀ m ∈ st.messages, m.conversation_id ≠ conv_id) →
        convTotalsInvariant (create_conversation st conv_id model_id title sys).1) := by
  constructor
  · intro st ops
    induction ops generalizing st with
    | nil => exact fun h => h
    | cons op rest ih => exact fun h => ih _ (add_message_preserves_totals st op h)
  · intro st conv_id model_id title sys h hfresh c' hc'
    simp only [create_conversation] at hc' ⊢
    rw [List.mem_append] at hc'
    rcases hc' with hold | hnew
    · exact h c' hold
    · simp at hnew
      subst hnew
      have hf : st.messages.filter (fun m => m.conversation_id == conv_id) = [] := by
        rw [List.filter_eq_nil_iff]
        intro m hm
        simp [hfresh m hm]
      refine ⟨?_, ?_, ?_⟩ <;> simp [msgFieldSum, hf]

/-- Closed witness for C7: a fresh conversation followed by a user turn
and a billed assistant turn; the rollup equals the message sums. -/
theorem conversation_totals_rollup_witness :
    convTotalsInvariant (applyAddMessages
      (create_conversation ⟨[], [], []⟩ "c1" "gpt-4o" "New Conversation" "").1
      [⟨"m1", "c1", "user", "hi", none, 0, 0, 0, false⟩,
       ⟨"m2", "c1", "assistant", "hello", some "gpt-4o", 3, 4, 1 / 100, false⟩]) := by
  apply conversation_totals_rollup.1
  intro c hc
  simp [create_conversation] at hc
  subst hc
  refine ⟨?_, ?_, ?_⟩ <;> simp [msgFieldSum, create_conversation]
